import Mathlib

/-!
Verification of the submessage dispatch and reply engine of wasmd.

The development shallowly embeds three parts of the `x/wasm/keeper` package:

* the submessage dispatcher (`DispatchSubmessages` of `msg_dispatcher.go`);
  the implementation file is not part of the source snapshot, only its test
  `msg_dispatcher_test.go`, so the dispatcher is modelled from the design
  spec with every behavioural choice cross-checked against the expectations
  of `TestDispatchSubmessages`;
* the event constructor (`newCustomEvents` / `newWasmModuleEvent`); again
  only the test file is present, so the functions are modelled from the
  spec and cross-checked against `TestNewCustomEvents` and
  `TestNewWasmModuleEvent`;
* the IBC port id helpers of `ibc.go`, which are present in the snapshot
  and embedded directly; the external cosmos-sdk bech32 address codec is
  modelled by an executable encoder/decoder pair exposing the interface
  contract the helpers rely on.

Machine integers do not occur on any verified path: gas values are modelled
as `Nat` (the Go code uses `uint64` but only compares and subtracts within
bounds), byte slices as `List Nat`, and the nil/non-nil distinction of Go
slices as `Option`.
-/

namespace Wasmd

/-! ## Data model (spec section 3) -/

/-- Modelled from the spec: the `ReplyPolicy` enum of a submessage
(`wasmvmtypes.ReplyOn` values `never`, `success`, `error`, `always`). -/
inductive ReplyOn where
  | never
  | onSuccess
  | onError
  | always
deriving DecidableEq

/-- A chain event: type string plus ordered key/value attributes
(`sdk.Event`). -/
structure Event where
  ty : String
  attributes : List (String × String)
deriving DecidableEq

/-- Byte slices are lists of naturals; `Option Bytes` models a Go
`[]byte` that may be nil (`none`) or non-nil, possibly empty (`some`). -/
abbrev Bytes := List Nat

/-- Modelled from the spec: a submessage
(`wasmvmtypes.SubMsg`). The execution-target payload of the message is
not interpreted by the dispatcher; the only relevant bit of the message
body is whether it is a Wasm-variant message, which controls reply event
visibility, so the tagged union is abstracted to that bit. -/
structure SubMsg where
  id : Nat
  gasLimit : Option Nat
  replyOn : ReplyOn
  payload : Bytes
  msgIsWasm : Bool
deriving DecidableEq

/-- Result branch of a reply (`wasmvmtypes.SubMsgResult`): either the
filtered events plus the first data frame of a successful execution, or
the failure message.  The `err` branch carries no events by construction,
mirroring the Go struct where only `Ok` has an `Events` field. -/
inductive SubMsgResult where
  | ok (events : List Event) (data : Option Bytes)
  | err (msg : String)
deriving DecidableEq

/-- A reply delivered to the contract (`wasmvmtypes.Reply`). -/
structure Reply where
  id : Nat
  payload : Bytes
  result : SubMsgResult
deriving DecidableEq

/-- Behaviour of one Message Handler invocation: the gas it consumes on
the (possibly limited) meter, the events it returns, the events it emits
into the isolated context, the data frames it returns, and its error, if
any.  This is the Go signature
`DispatchMsg(ctx, contractAddr, ibcPort, msg) (events, data, msgResponses, err)`
with the event-manager side channel made explicit; protocol responses are
omitted because no verified property mentions them. -/
structure HandlerBeh where
  gasUsed : Nat
  events : List Event
  emitted : List Event
  data : List (Option Bytes)
  err : Option String
deriving DecidableEq

/-- Behaviour of one Replyer invocation: events it emits on the context
it is handed (the parent context), the response bytes it returns (`none`
for a nil slice) and its error, if any.  This is the Go signature
`reply(ctx, contractAddress, reply) ([]byte, error)`. -/
structure ReplyerBeh where
  emitted : List Event
  data : Option Bytes
  err : Option String
deriving DecidableEq

/-- The Message Handler collaborator, indexed by the position of the
submessage in the dispatched list. -/
abbrev Handler := Nat → HandlerBeh

/-- The Replyer collaborator. -/
abbrev Replyer := Reply → ReplyerBeh

/-- Dispatcher state threaded through the submessage loop: the parent
context's committed event stream, the per-submessage commit flags of the
multistore (the `Committed` list of the mock store in the test harness),
the remaining ambient gas, the running response data, and the trace of
replies delivered so far. -/
structure DState where
  parentEvents : List Event
  commits : List Bool
  rem : Nat
  rsp : Option Bytes
  trace : List Reply
deriving DecidableEq

/-! ## Event filter (spec section 4.3) -/

/-- Modelled from the spec: the event filter removes events of type
`message` from the contract-visible set.  Cross-checked against the
`message event filtered without reply` case of `TestDispatchSubmessages`,
which also shows the filtered stream is what reaches the parent context. -/
def filterEvents (events : List Event) : List Event :=
  events.filter (fun e => e.ty != "message")

/-- First data frame of a handler result, `none` when there is none
(the dispatcher passes only `data[0]` into the reply). -/
def headData : List (Option Bytes) → Option Bytes
  | [] => none
  | d :: _ => d

/-! ## Gas-limited execution context (spec section 4.1 step 2) -/

/-- Modelled from the spec: the gas ceiling for one submessage is
`min(GasLimit, gas remaining on the ambient meter)` when a limit is set,
otherwise the ambient remaining gas. -/
def ceilingGas (msg : SubMsg) (rem : Nat) : Nat :=
  match msg.gasLimit with
  | some l => min l rem
  | none => rem

/-- Modelled from the spec: the failure outcome the dispatcher observes
from one handler invocation.  When a gas limit is installed and the
handler's consumption exceeds the ceiling, the out-of-gas condition
surfaces as an ordinary failure (never a panic); otherwise the handler's
own error is the outcome. -/
def handlerFailure (msg : SubMsg) (hb : HandlerBeh) (rem : Nat) : Option String :=
  match msg.gasLimit with
  | some l => if min l rem < hb.gasUsed then some "out of gas" else hb.err
  | none => hb.err

/-! ## Dispatcher (spec section 4.1) -/

/-- Modelled from the spec: invoke the Replyer on the parent context.
Events the reply emits are appended to the parent's committed stream, the
reply is recorded in the trace, and on success a non-nil response
overwrites the running result (a nil response leaves it untouched).  A
Replyer error aborts with that error. -/
def invokeReplyer (r : Replyer) (rep : Reply) (st : DState) : DState × Option String :=
  let rb := r rep
  let st1 := { st with
    parentEvents := st.parentEvents ++ rb.emitted
    trace := st.trace ++ [rep] }
  match rb.err with
  | some e => (st1, some e)
  | none => ({ st1 with rsp := rb.data.or st1.rsp }, none)

/-- The `Err` reply built for a failed submessage: it echoes id and
payload and carries the failure message and no events. -/
def errReply (msg : SubMsg) (e : String) : Reply :=
  { id := msg.id, payload := msg.payload, result := .err e }

/-- The `Ok` reply built for a successful submessage: it echoes id and
payload and carries the filtered buffered events (only for Wasm-variant
messages; protocol-origin dispatches contribute no events to the reply)
and the first data frame. -/
def okReply (hb : HandlerBeh) (msg : SubMsg) : Reply :=
  { id := msg.id, payload := msg.payload
    result := .ok (if msg.msgIsWasm then filterEvents (hb.events ++ hb.emitted) else [])
      (headData hb.data) }

/-- Modelled from the spec: one step of the dispatcher loop for a single
submessage (spec section 4.1 steps 1 to 6), cross-checked against every
case of `TestDispatchSubmessages`:

* the handler runs in an isolated context whose buffered events are
  `hb.events ++ hb.emitted`; gas is charged to the ambient meter up to the
  ceiling;
* on failure the isolated context is discarded (commit flag `false`,
  nothing reaches the parent stream) and, when the policy is `onError` or
  `always`, an `Err` reply carrying the failure message and no events is
  delivered on the parent context; otherwise the step aborts with the
  handler's error;
* on success the isolated context is committed (commit flag `true`) and
  the filtered buffered events are appended to the parent stream; when
  the policy is `onSuccess` or `always` an `Ok` reply is delivered whose
  events are the filtered buffered events for Wasm-variant messages and
  empty otherwise (the `non-wasm reply events get filtered` test case). -/
def dispatchStep (hb : HandlerBeh) (r : Replyer) (msg : SubMsg) (st : DState) :
    DState × Option String :=
  let rem1 := st.rem - min hb.gasUsed (ceilingGas msg st.rem)
  match handlerFailure msg hb st.rem with
  | some e =>
    let st1 := { st with commits := st.commits ++ [false], rem := rem1 }
    match msg.replyOn with
    | .onError | .always => invokeReplyer r (errReply msg e) st1
    | _ => (st1, some e)
  | none =>
    let st1 := { st with
      commits := st.commits ++ [true]
      parentEvents := st.parentEvents ++ filterEvents (hb.events ++ hb.emitted)
      rem := rem1 }
    match msg.replyOn with
    | .onSuccess | .always => invokeReplyer r (okReply hb msg) st1
    | _ => (st1, none)

/-- Modelled from the spec: the strict sequential fold of the dispatcher
over the submessage list; an abort stops the loop immediately. -/
def dispatchGo (h : Handler) (r : Replyer) : List SubMsg → Nat → DState → DState × Option String
  | [], _, st => (st, none)
  | m :: ms, i, st =>
    match dispatchStep (h i) r m st with
    | (st1, some e) => (st1, some e)
    | (st1, none) => dispatchGo h r ms (i + 1) st1

/-- Initial dispatcher state over an ambient gas meter with the given
remaining gas. -/
def initialState (gas : Nat) : DState :=
  { parentEvents := [], commits := [], rem := gas, rsp := none, trace := [] }

/-- Modelled from the spec: `DispatchSubmessages` returns the running
result (nil when no reply ever set it) and no error after the last
submessage, or nil data plus the abort error. -/
def DispatchSubmessages (h : Handler) (r : Replyer) (gas : Nat) (msgs : List SubMsg) :
    Option Bytes × Option String :=
  match dispatchGo h r msgs 0 (initialState gas) with
  | (_, some e) => (none, some e)
  | (st, none) => (st.rsp, none)

/-- The most recently returned non-nil response frame of a sequence of
reply responses (spec section 3, `RunningResult`). -/
def lastNonNil (l : List (Option Bytes)) : Option Bytes :=
  l.foldl (fun acc o => match o with | some d => some d | none => acc) none

/-- Decidable success test for `Except`. -/
def exceptIsOk {α : Type} : Except String α → Bool
  | .ok _ => true
  | .error _ => false

instance {ε α : Type} [DecidableEq ε] [DecidableEq α] : DecidableEq (Except ε α) := fun x y =>
  match x, y with
  | .ok u, .ok v =>
    if h : u = v then isTrue (by rw [h]) else isFalse (by intro hc; cases hc; exact h rfl)
  | .error u, .error v =>
    if h : u = v then isTrue (by rw [h]) else isFalse (by intro hc; cases hc; exact h rfl)
  | .ok _, .error _ => isFalse (by intro hc; cases hc)
  | .error _, .ok _ => isFalse (by intro hc; cases hc)

/-! ## Event constructor (spec section 4.2, `events.go`) -/

/-- Characters treated as surrounding whitespace by `strings.TrimSpace`
(the ASCII subset; the verified inputs contain no other code points). -/
def goSpaceChars : List Char := [' ', '\t', '\n', '\x0b', '\x0c', '\r']

/-- Whitespace test used for trimming event types, keys and values. -/
def goIsSpace (c : Char) : Bool := goSpaceChars.contains c

/-- `strings.TrimSpace`: drop surrounding whitespace from both ends. -/
def trimSpace (s : String) : String :=
  String.mk (((s.data.dropWhile goIsSpace).reverse.dropWhile goIsSpace).reverse)

/-- `strings.HasPrefix`. -/
def strHasPrefix (s pre : String) : Bool :=
  pre.data.isPrefixOf s.data

/-- An attribute as declared by the contract
(`wasmvmtypes.EventAttribute`). -/
structure EventAttribute where
  key : String
  value : String
deriving DecidableEq

/-- An event as declared by the contract (`wasmvmtypes.Event`). -/
structure WasmVMEvent where
  ty : String
  attributes : List EventAttribute
deriving DecidableEq

/-- The injected reserved attribute key (`types.AttributeKeyContractAddr`). -/
def AttributeKeyContractAddr : String := "_contract_address"

/-- The reserved attribute key namespace (`types.AttributeReservedPrefix`). -/
def AttributeReservedPrefix : String := "_"

/-- Bare module-level event type (`types.WasmModuleEventType`). -/
def WasmModuleEventType : String := "wasm"

/-- Namespace prefix of per-event output types
(`types.CustomContractEventPrefix`). -/
def CustomContractEventPrefix : String := "wasm-"

/-- Minimum length of a trimmed event type (`eventTypeMinLength`). -/
def eventTypeMinLength : Nat := 2

/-- Modelled from the spec: validation and cleaning of the
contract-supplied attributes of one event.  Every key and value is
trimmed of surrounding whitespace; an empty key after trimming is an
error; a key carrying the reserved `_` prefix (which includes
`_contract_address`) is an error; a whitespace-only value collapses to
the empty string without error.  Cross-checked against
`TestNewCustomEvents` and `TestNewWasmModuleEvent`. -/
def cleanAttributes : List EventAttribute → Except String (List (String × String))
  | [] => .ok []
  | a :: rest =>
    let key := trimSpace a.key
    if key.length = 0 then .error "empty attribute key"
    else if strHasPrefix key AttributeReservedPrefix then
      .error "attribute key starts with reserved prefix"
    else
      match cleanAttributes rest with
      | .error e => .error e
      | .ok tail => .ok ((key, trimSpace a.value) :: tail)

/-- Modelled from the spec: the cleaned attribute list of one event with
`_contract_address` injected as the first attribute, valued by the
contract address's canonical string form
(`contractSDKEventAttributes` of `events.go`). -/
def contractSDKEventAttributes (customAttributes : List EventAttribute)
    (contractAddr : String) : Except String (List (String × String)) :=
  match cleanAttributes customAttributes with
  | .error e => .error e
  | .ok attrs => .ok ((AttributeKeyContractAddr, contractAddr) :: attrs)

/-- Modelled from the spec: the module-level event constructor flavor; it
produces the single combined event of bare type `wasm`
(`newWasmModuleEvent` of `events.go`). -/
def newWasmModuleEvent (customAttributes : List EventAttribute)
    (contractAddr : String) : Except String (List Event) :=
  match contractSDKEventAttributes customAttributes contractAddr with
  | .error e => .error e
  | .ok attrs => .ok [{ ty := WasmModuleEventType, attributes := attrs }]

/-- Modelled from the spec: the per-event constructor flavor; each event
type is trimmed of surrounding whitespace and must be at least 2
characters long after trimming, else construction fails; the output type
is namespaced as `wasm-` followed by the trimmed type
(`newCustomEvents` of `events.go`). -/
def newCustomEvents : List WasmVMEvent → String → Except String (List Event)
  | [], _ => .ok []
  | e :: rest, contractAddr =>
    let typ := trimSpace e.ty
    if typ.length < eventTypeMinLength then .error "event type too short"
    else
      match contractSDKEventAttributes e.attributes contractAddr with
      | .error er => .error er
      | .ok attrs =>
        match newCustomEvents rest contractAddr with
        | .error er => .error er
        | .ok tail => .ok ({ ty := CustomContractEventPrefix ++ typ, attributes := attrs } :: tail)

/-! ## IBC port ids (`ibc.go`) and the external address codec -/

/-- A raw account address: its byte string
(cosmos-sdk `sdk.AccAddress`). -/
abbrev AccAddress := List (Fin 256)

/-- Hex digit character for a value below 16 (digits then lowercase
letters). -/
def hexChar (n : Nat) : Char :=
  if n < 10 then Char.ofNat (48 + n) else Char.ofNat (87 + n)

/-- Two-character hex rendering of one byte. -/
def byteHex (b : Fin 256) : List Char :=
  [hexChar (b.val / 16), hexChar (b.val % 16)]

/-- Numeric value of a hex digit character, `none` on anything else. -/
def hexVal (c : Char) : Option Nat :=
  if 48 ≤ c.toNat ∧ c.toNat ≤ 57 then some (c.toNat - 48)
  else if 97 ≤ c.toNat ∧ c.toNat ≤ 102 then some (c.toNat - 87)
  else none

/-- Decode a hex character stream back into bytes; fails on odd length or
non-hex characters. -/
def hexDecodeChars : List Char → Option AccAddress
  | [] => some []
  | [_] => none
  | c1 :: c2 :: rest =>
    match hexVal c1, hexVal c2, hexDecodeChars rest with
    | some hi, some lo, some tail =>
      if hb : hi * 16 + lo < 256 then some (⟨hi * 16 + lo, hb⟩ :: tail) else none
    | _, _, _ => none

/-- Hex character stream of an address. -/
def addrHexChars (a : AccAddress) : List Char :=
  a.foldr (fun b acc => byteHex b ++ acc) []

/-- Canonical string form of an account address, modelling the external
cosmos-sdk `AccAddress.String` bech32 codec at its interface contract: an
empty address renders as the empty string, a non-empty one as a
human-readable prefix followed by an injectively encoded data part. -/
def addrString (a : AccAddress) : String :=
  if a = [] then "" else "cosmos1" ++ String.mk (addrHexChars a)

/-- Decode the data part of an address string: undecodable character
streams are rejected, and a decoded empty byte string is rejected by the
address format check. -/
def decodedAddr (l : List Char) : Except String AccAddress :=
  match hexDecodeChars l with
  | none => .error "decoding bech32 failed"
  | some [] => .error "invalid address"
  | some (b :: bs) => .ok (b :: bs)

/-- Modelling the external cosmos-sdk `sdk.AccAddressFromBech32` at its
interface contract: the empty string and strings without the
human-readable prefix are rejected, the data part is decoded by
`decodedAddr`, and decoding inverts `addrString` on non-empty
addresses. -/
def accAddressFromBech32 (s : String) : Except String AccAddress :=
  if s = "" then .error "empty address string is not allowed"
  else if strHasPrefix s "cosmos1" then decodedAddr (s.data.drop 7)
  else .error "decoding bech32 failed"

/-- `portIDPrefix` of `ibc.go`. -/
def portIDPrefix : String := "wasm."

/-- `PortIDForContract` of `ibc.go`. -/
def PortIDForContract (addr : AccAddress) : String :=
  portIDPrefix ++ addrString addr

/-- `ibcV2PortIDPrefix` of `ibc.go`. -/
def ibcV2PortIDPrefix : String := "wasm2."

/-- `IbcV2PortIDForContract` of `ibc.go`. -/
def IbcV2PortIDForContract (addr : AccAddress) : String :=
  ibcV2PortIDPrefix ++ addrString addr

/-- Drop the first `n` characters of a string (the Go slice
`portID[n:]`; the prefixes are ASCII so byte and character counts
agree). -/
def strDrop (s : String) (n : Nat) : String :=
  String.mk (s.data.drop n)

/-- `ContractFromPortID` of `ibc.go`: strip the `wasm2.` or `wasm.`
prefix (checked in that order) and decode the remainder as a bech32
account address; any other string is rejected as `without prefix`. -/
def ContractFromPortID (portID : String) : Except String AccAddress :=
  if strHasPrefix portID ibcV2PortIDPrefix then
    accAddressFromBech32 (strDrop portID ibcV2PortIDPrefix.length)
  else if strHasPrefix portID portIDPrefix then
    accAddressFromBech32 (strDrop portID portIDPrefix.length)
  else .error "without prefix"

/-! ## Concrete fixtures mirroring the mocks of the test files -/

/-- A submessage with no gas limit and a non-Wasm message body. -/
def sampleMsg (idn : Nat) (ro : ReplyOn) : SubMsg :=
  { id := idn, gasLimit := none, replyOn := ro, payload := [], msgIsWasm := false }

/-- A handler that fails with `my error` (the failing mock handler). -/
def sampleHandlerFail : Handler := fun _ =>
  HandlerBeh.mk 0 [] [] [] (some "my error")

/-- A handler that succeeds and returns one data frame. -/
def sampleHandlerOk : Handler := fun _ =>
  HandlerBeh.mk 0 [] [] [some [1]] none

/-- A handler that succeeds and returns a `message` event followed by an
`execute` event (the `message event filtered without reply` mock). -/
def sampleHandlerMsgExec : Handler := fun _ =>
  HandlerBeh.mk 0 [Event.mk "message" [], Event.mk "execute" [("foo", "bar")]] [] [some [1]] none

/-- A replyer returning the response frame `[100, id]` (the
`myReplyData:<id>` mock). -/
def sampleReplyer : Replyer := fun rep =>
  ReplyerBeh.mk [] (some [100, rep.id]) none

/-- A replyer returning a nil response. -/
def sampleReplyerNil : Replyer := fun _ =>
  ReplyerBeh.mk [] none none

/-- A replyer that fails with `reply failed`. -/
def sampleReplyerFail : Replyer := fun _ =>
  ReplyerBeh.mk [] none (some "reply failed")

/-- A replyer answering an explicitly empty (non-nil) frame for id 2 and
a non-empty frame otherwise (the `empty reply can overwrite result`
mock). -/
def sampleReplyerEmptyOn2 : Replyer := fun rep =>
  if rep.id = 2 then ReplyerBeh.mk [] (some []) none
  else ReplyerBeh.mk [] (some [100, 1]) none

/-- A Wasm-variant submessage with reply policy `Always`. -/
def sampleWasmMsg : SubMsg :=
  SubMsg.mk 1 none ReplyOn.always [] true

/-- A submessage with gas limit 1 and reply policy `OnError` (the
`with gas limit` mocks). -/
def sampleGasMsg : SubMsg :=
  SubMsg.mk 1 (some 1) ReplyOn.onError [] false

/-- A handler consuming 101 gas and otherwise succeeding. -/
def sampleGasHandler : Handler := fun _ =>
  HandlerBeh.mk 101 [] [] [some [1]] none

/-- A handler consuming 1 gas and succeeding. -/
def sampleGasHandler1 : Handler := fun _ =>
  HandlerBeh.mk 1 [] [] [some [1]] none

/-! ## Characterisation lemmas for the dispatcher -/

theorem mem_filterEvents (ev : Event) (l : List Event) :
    ev ∈ filterEvents l ↔ ev ∈ l ∧ ev.ty ≠ "message" := by
  simp [filterEvents]

theorem filterEvents_no_message (ev : Event) (l : List Event)
    (hmem : ev ∈ filterEvents l) : ev.ty ≠ "message" :=
  ((mem_filterEvents ev l).mp hmem).2

theorem filterEvents_eq_self (l : List Event)
    (hl : ∀ ev ∈ l, ev.ty ≠ "message") : filterEvents l = l := by
  unfold filterEvents
  rw [List.filter_eq_self]
  intro a ha
  simpa using hl a ha

theorem invokeReplyer_of_err (r : Replyer) (rep : Reply) (st : DState) (e : String)
    (h : (r rep).err = some e) :
    invokeReplyer r rep st =
      ({ st with
          parentEvents := st.parentEvents ++ (r rep).emitted
          trace := st.trace ++ [rep] }, some e) := by
  simp [invokeReplyer, h]

theorem invokeReplyer_of_ok (r : Replyer) (rep : Reply) (st : DState)
    (h : (r rep).err = none) :
    invokeReplyer r rep st =
      ({ st with
          parentEvents := st.parentEvents ++ (r rep).emitted
          trace := st.trace ++ [rep]
          rsp := (r rep).data.or st.rsp }, none) := by
  simp [invokeReplyer, h]

theorem dispatchStep_fail_abort (hb : HandlerBeh) (r : Replyer) (msg : SubMsg) (st : DState)
    (e : String)
    (hf : handlerFailure msg hb st.rem = some e)
    (hpol : msg.replyOn = ReplyOn.never ∨ msg.replyOn = ReplyOn.onSuccess) :
    dispatchStep hb r msg st =
      ({ st with
          commits := st.commits ++ [false]
          rem := st.rem - min hb.gasUsed (ceilingGas msg st.rem) }, some e) := by
  rcases hpol with hp | hp <;> simp [dispatchStep, hf, hp]

theorem dispatchStep_fail_reply (hb : HandlerBeh) (r : Replyer) (msg : SubMsg) (st : DState)
    (e : String)
    (hf : handlerFailure msg hb st.rem = some e)
    (hpol : msg.replyOn = ReplyOn.onError ∨ msg.replyOn = ReplyOn.always) :
    dispatchStep hb r msg st =
      invokeReplyer r (errReply msg e)
        { st with
            commits := st.commits ++ [false]
            rem := st.rem - min hb.gasUsed (ceilingGas msg st.rem) } := by
  rcases hpol with hp | hp <;> simp [dispatchStep, hf, hp]

theorem dispatchStep_ok_noReply (hb : HandlerBeh) (r : Replyer) (msg : SubMsg) (st : DState)
    (hf : handlerFailure msg hb st.rem = none)
    (hpol : msg.replyOn = ReplyOn.never ∨ msg.replyOn = ReplyOn.onError) :
    dispatchStep hb r msg st =
      ({ st with
          commits := st.commits ++ [true]
          parentEvents := st.parentEvents ++ filterEvents (hb.events ++ hb.emitted)
          rem := st.rem - min hb.gasUsed (ceilingGas msg st.rem) }, none) := by
  rcases hpol with hp | hp <;> simp [dispatchStep, hf, hp]

theorem dispatchStep_ok_reply (hb : HandlerBeh) (r : Replyer) (msg : SubMsg) (st : DState)
    (hf : handlerFailure msg hb st.rem = none)
    (hpol : msg.replyOn = ReplyOn.onSuccess ∨ msg.replyOn = ReplyOn.always) :
    dispatchStep hb r msg st =
      invokeReplyer r (okReply hb msg)
        { st with
            commits := st.commits ++ [true]
            parentEvents := st.parentEvents ++ filterEvents (hb.events ++ hb.emitted)
            rem := st.rem - min hb.gasUsed (ceilingGas msg st.rem) } := by
  rcases hpol with hp | hp <;> simp [dispatchStep, hf, hp]

theorem dispatchGo_cons_err (h : Handler) (r : Replyer) (m : SubMsg) (ms : List SubMsg)
    (i : Nat) (st st1 : DState) (e : String)
    (hstep : dispatchStep (h i) r m st = (st1, some e)) :
    dispatchGo h r (m :: ms) i st = (st1, some e) := by
  simp [dispatchGo, hstep]

theorem dispatchGo_cons_ok (h : Handler) (r : Replyer) (m : SubMsg) (ms : List SubMsg)
    (i : Nat) (st st1 : DState)
    (hstep : dispatchStep (h i) r m st = (st1, none)) :
    dispatchGo h r (m :: ms) i st = dispatchGo h r ms (i + 1) st1 := by
  simp [dispatchGo, hstep]

theorem invokeReplyer_fst_parentEvents (r : Replyer) (rep : Reply) (st : DState) :
    (invokeReplyer r rep st).1.parentEvents = st.parentEvents ++ (r rep).emitted := by
  unfold invokeReplyer
  cases hre : (r rep).err <;> simp [hre]

theorem invokeReplyer_fst_trace (r : Replyer) (rep : Reply) (st : DState) :
    (invokeReplyer r rep st).1.trace = st.trace ++ [rep] := by
  unfold invokeReplyer
  cases hre : (r rep).err <;> simp [hre]

theorem invokeReplyer_fst_commits (r : Replyer) (rep : Reply) (st : DState) :
    (invokeReplyer r rep st).1.commits = st.commits := by
  unfold invokeReplyer
  cases hre : (r rep).err <;> simp [hre]

theorem dispatchGo_cons_char (h : Handler) (r : Replyer) (m : SubMsg) (ms : List SubMsg)
    (i : Nat) (st : DState) :
    ((dispatchStep (h i) r m st).2 = none →
      dispatchGo h r (m :: ms) i st = dispatchGo h r ms (i + 1) (dispatchStep (h i) r m st).1) ∧
    (∀ e, (dispatchStep (h i) r m st).2 = some e →
      dispatchGo h r (m :: ms) i st = ((dispatchStep (h i) r m st).1, some e)) := by
  constructor
  · intro h2
    exact dispatchGo_cons_ok h r m ms i st _ (by rw [← h2])
  · intro e h2
    exact dispatchGo_cons_err h r m ms i st _ e (by rw [← h2])

/-! ## Claim theorems -/

/-- Claim C1: for every submessage whose reply policy is `OnError` or
`Always`, a Message Handler failure does not abort the dispatch: the
Replyer is invoked on the parent context with a reply whose result is the
`Err` branch carrying the failure message (and, by the shape of
`errReply`, no events), the submessage's commit flag is `false`, the
parent stream receives only what the reply itself emits, and dispatch
continues with the next submessage. -/
theorem dispatch_onError_absorbs_handler_failure
    (h : Handler) (r : Replyer) (msg : SubMsg) (st : DState) (ms : List SubMsg) (i : Nat)
    (e : String)
    (hpol : msg.replyOn = ReplyOn.onError ∨ msg.replyOn = ReplyOn.always)
    (hfail : handlerFailure msg (h i) st.rem = some e)
    (hrep : (r (errReply msg e)).err = none) :
    (dispatchStep (h i) r msg st).2 = none ∧
    (dispatchStep (h i) r msg st).1.trace = st.trace ++ [errReply msg e] ∧
    (errReply msg e).result = SubMsgResult.err e ∧
    (dispatchStep (h i) r msg st).1.commits = st.commits ++ [false] ∧
    (dispatchStep (h i) r msg st).1.parentEvents =
      st.parentEvents ++ (r (errReply msg e)).emitted ∧
    dispatchGo h r (msg :: ms) i st = dispatchGo h r ms (i + 1) (dispatchStep (h i) r msg st).1 := by
  have hs := dispatchStep_fail_reply (h i) r msg st e hfail hpol
  rw [invokeReplyer_of_ok r (errReply msg e) _ hrep] at hs
  refine ⟨by rw [hs], by rw [hs], rfl, by rw [hs], by rw [hs],
    dispatchGo_cons_ok h r msg ms i st _ (by rw [hs])⟩

/-- Claim C1 witness: the absorbed failure scenario of
`TestDispatchSubmessages/reply on error - handled`, instantiated with the
failing mock handler and the data-returning mock replyer. -/
theorem dispatch_onError_absorbs_handler_failure_witness :
    (dispatchStep (sampleHandlerFail 0) sampleReplyer (sampleMsg 1 ReplyOn.onError)
        (initialState 100)).2 = none ∧
    (dispatchStep (sampleHandlerFail 0) sampleReplyer (sampleMsg 1 ReplyOn.onError)
        (initialState 100)).1.trace =
      (initialState 100).trace ++ [errReply (sampleMsg 1 ReplyOn.onError) "my error"] ∧
    (errReply (sampleMsg 1 ReplyOn.onError) "my error").result = SubMsgResult.err "my error" ∧
    (dispatchStep (sampleHandlerFail 0) sampleReplyer (sampleMsg 1 ReplyOn.onError)
        (initialState 100)).1.commits = (initialState 100).commits ++ [false] ∧
    (dispatchStep (sampleHandlerFail 0) sampleReplyer (sampleMsg 1 ReplyOn.onError)
        (initialState 100)).1.parentEvents =
      (initialState 100).parentEvents ++
        (sampleReplyer (errReply (sampleMsg 1 ReplyOn.onError) "my error")).emitted ∧
    dispatchGo sampleHandlerFail sampleReplyer [sampleMsg 1 ReplyOn.onError,
        sampleMsg 2 ReplyOn.onError] 0 (initialState 100) =
      dispatchGo sampleHandlerFail sampleReplyer [sampleMsg 2 ReplyOn.onError] 1
        (dispatchStep (sampleHandlerFail 0) sampleReplyer (sampleMsg 1 ReplyOn.onError)
          (initialState 100)).1 :=
  dispatch_onError_absorbs_handler_failure sampleHandlerFail sampleReplyer
    (sampleMsg 1 ReplyOn.onError) (initialState 100) [sampleMsg 2 ReplyOn.onError] 0
    "my error" (Or.inl rfl) (by decide) (by decide)

/-- Claim C2: for every submessage whose reply policy is `Never` or
`OnSuccess`, a Message Handler failure aborts the whole dispatch
immediately with the original handler error: the Replyer is never
invoked (the reply trace is unchanged), the accumulated response data is
untouched, nothing reaches the parent stream, and the remaining
submessages never execute (the result does not depend on them). -/
theorem dispatch_unabsorbed_handler_failure_aborts
    (h : Handler) (r : Replyer) (msg : SubMsg) (st : DState) (ms : List SubMsg) (i : Nat)
    (e : String)
    (hpol : msg.replyOn = ReplyOn.never ∨ msg.replyOn = ReplyOn.onSuccess)
    (hfail : handlerFailure msg (h i) st.rem = some e) :
    dispatchGo h r (msg :: ms) i st = ((dispatchStep (h i) r msg st).1, some e) ∧
    (dispatchStep (h i) r msg st).1.trace = st.trace ∧
    (dispatchStep (h i) r msg st).1.rsp = st.rsp ∧
    (dispatchStep (h i) r msg st).1.parentEvents = st.parentEvents ∧
    (dispatchStep (h i) r msg st).1.commits = st.commits ++ [false] := by
  have hs := dispatchStep_fail_abort (h i) r msg st e hfail hpol
  refine ⟨dispatchGo_cons_err h r msg ms i st _ e (by rw [hs]),
    by rw [hs], by rw [hs], by rw [hs], by rw [hs]⟩

/-- Claim C2 witness: the aborting scenario of
`TestDispatchSubmessages/no reply on success without success`, with a
second pending submessage that never executes. -/
theorem dispatch_unabsorbed_handler_failure_aborts_witness :
    dispatchGo sampleHandlerFail sampleReplyer [sampleMsg 1 ReplyOn.onSuccess,
        sampleMsg 2 ReplyOn.onSuccess] 0 (initialState 100) =
      ((dispatchStep (sampleHandlerFail 0) sampleReplyer (sampleMsg 1 ReplyOn.onSuccess)
          (initialState 100)).1, some "my error") ∧
    (dispatchStep (sampleHandlerFail 0) sampleReplyer (sampleMsg 1 ReplyOn.onSuccess)
        (initialState 100)).1.trace = (initialState 100).trace ∧
    (dispatchStep (sampleHandlerFail 0) sampleReplyer (sampleMsg 1 ReplyOn.onSuccess)
        (initialState 100)).1.rsp = (initialState 100).rsp ∧
    (dispatchStep (sampleHandlerFail 0) sampleReplyer (sampleMsg 1 ReplyOn.onSuccess)
        (initialState 100)).1.parentEvents = (initialState 100).parentEvents ∧
    (dispatchStep (sampleHandlerFail 0) sampleReplyer (sampleMsg 1 ReplyOn.onSuccess)
        (initialState 100)).1.commits = (initialState 100).commits ++ [false] :=
  dispatch_unabsorbed_handler_failure_aborts sampleHandlerFail sampleReplyer
    (sampleMsg 1 ReplyOn.onSuccess) (initialState 100) [sampleMsg 2 ReplyOn.onSuccess] 0
    "my error" (Or.inr rfl) (by decide)

/-- Claim C3 counterexample: a successful submessage whose buffered
events contain a `message`-type event (the
`TestDispatchSubmessages/message event filtered without reply` handler)
is committed — commit flag `true` — yet that buffered event is not
merged into the parent context's emitted stream, so not every buffered
event of a successful submessage becomes visible in the parent's event
stream. -/
theorem buffered_message_event_not_merged_counterexample :
    handlerFailure (sampleMsg 1 ReplyOn.never) (sampleHandlerMsgExec 0)
        (initialState 100).rem = none ∧
    Event.mk "message" [] ∈ (sampleHandlerMsgExec 0).events ++ (sampleHandlerMsgExec 0).emitted ∧
    (dispatchStep (sampleHandlerMsgExec 0) sampleReplyerNil (sampleMsg 1 ReplyOn.never)
        (initialState 100)).1.commits = (initialState 100).commits ++ [true] ∧
    Event.mk "message" [] ∉ (dispatchStep (sampleHandlerMsgExec 0) sampleReplyerNil
        (sampleMsg 1 ReplyOn.never) (initialState 100)).1.parentEvents := by
  decide

/-- Claim C3 (amended): per-submessage atomicity.  Each submessage's
buffered effects are resolved atomically before the next submessage
begins: a failing handler's buffered events are discarded — commit flag
`false` and the parent stream untouched except for what an `Err` reply
itself emits; a successful handler's buffered events are committed with
the event filter applied — commit flag `true` and the parent stream
receiving exactly the filtered buffered events (`message`-type events
excluded), in order, followed by any reply emissions; and the step is
fully resolved before the tail of the list is dispatched: the tail runs
from the already-updated state on continuation and never runs on
abort. -/
theorem dispatch_submsg_effects_atomic
    (h : Handler) (r : Replyer) (msg : SubMsg) (st : DState) (ms : List SubMsg) (i : Nat) :
    (match handlerFailure msg (h i) st.rem with
     | some e =>
       (dispatchStep (h i) r msg st).1.commits = st.commits ++ [false] ∧
       (dispatchStep (h i) r msg st).1.parentEvents =
         st.parentEvents ++
           (if msg.replyOn = ReplyOn.onError ∨ msg.replyOn = ReplyOn.always then
              (r (errReply msg e)).emitted
            else [])
     | none =>
       (dispatchStep (h i) r msg st).1.commits = st.commits ++ [true] ∧
       (dispatchStep (h i) r msg st).1.parentEvents =
         st.parentEvents ++ filterEvents ((h i).events ++ (h i).emitted) ++
           (if msg.replyOn = ReplyOn.onSuccess ∨ msg.replyOn = ReplyOn.always then
              (r (okReply (h i) msg)).emitted
            else [])) ∧
    ((dispatchStep (h i) r msg st).2 = none →
      dispatchGo h r (msg :: ms) i st =
        dispatchGo h r ms (i + 1) (dispatchStep (h i) r msg st).1) ∧
    (∀ e, (dispatchStep (h i) r msg st).2 = some e →
      dispatchGo h r (msg :: ms) i st = ((dispatchStep (h i) r msg st).1, some e)) := by
  refine ⟨?_, (dispatchGo_cons_char h r msg ms i st).1, (dispatchGo_cons_char h r msg ms i st).2⟩
  cases hf : handlerFailure msg (h i) st.rem with
  | some e =>
    cases hro : msg.replyOn with
    | never =>
      rw [dispatchStep_fail_abort (h i) r msg st e hf (Or.inl hro)]
      simp [hro]
    | onSuccess =>
      rw [dispatchStep_fail_abort (h i) r msg st e hf (Or.inr hro)]
      simp [hro]
    | onError =>
      rw [dispatchStep_fail_reply (h i) r msg st e hf (Or.inl hro)]
      simp [hro, invokeReplyer_fst_parentEvents, invokeReplyer_fst_commits]
    | always =>
      rw [dispatchStep_fail_reply (h i) r msg st e hf (Or.inr hro)]
      simp [hro, invokeReplyer_fst_parentEvents, invokeReplyer_fst_commits]
  | none =>
    cases hro : msg.replyOn with
    | never =>
      rw [dispatchStep_ok_noReply (h i) r msg st hf (Or.inl hro)]
      simp [hro]
    | onError =>
      rw [dispatchStep_ok_noReply (h i) r msg st hf (Or.inr hro)]
      simp [hro]
    | onSuccess =>
      rw [dispatchStep_ok_reply (h i) r msg st hf (Or.inl hro)]
      simp [hro, invokeReplyer_fst_parentEvents, invokeReplyer_fst_commits,
        List.append_assoc]
    | always =>
      rw [dispatchStep_ok_reply (h i) r msg st hf (Or.inr hro)]
      simp [hro, invokeReplyer_fst_parentEvents, invokeReplyer_fst_commits,
        List.append_assoc]

/-- Claim C3 (amended) witness: the
`TestDispatchSubmessages/message event filtered without reply` commit
scenario, at a handler whose buffered events contain a `message` event
and an `execute` event: the commit appends only the filtered events. -/
theorem dispatch_submsg_effects_atomic_witness :
    (match handlerFailure (sampleMsg 1 ReplyOn.never) (sampleHandlerMsgExec 0)
        (initialState 100).rem with
     | some e =>
       (dispatchStep (sampleHandlerMsgExec 0) sampleReplyerNil (sampleMsg 1 ReplyOn.never)
           (initialState 100)).1.commits = (initialState 100).commits ++ [false] ∧
       (dispatchStep (sampleHandlerMsgExec 0) sampleReplyerNil (sampleMsg 1 ReplyOn.never)
           (initialState 100)).1.parentEvents =
         (initialState 100).parentEvents ++
           (if (sampleMsg 1 ReplyOn.never).replyOn = ReplyOn.onError ∨
               (sampleMsg 1 ReplyOn.never).replyOn = ReplyOn.always then
              (sampleReplyerNil (errReply (sampleMsg 1 ReplyOn.never) e)).emitted
            else [])
     | none =>
       (dispatchStep (sampleHandlerMsgExec 0) sampleReplyerNil (sampleMsg 1 ReplyOn.never)
           (initialState 100)).1.commits = (initialState 100).commits ++ [true] ∧
       (dispatchStep (sampleHandlerMsgExec 0) sampleReplyerNil (sampleMsg 1 ReplyOn.never)
           (initialState 100)).1.parentEvents =
         (initialState 100).parentEvents ++
           filterEvents ((sampleHandlerMsgExec 0).events ++ (sampleHandlerMsgExec 0).emitted) ++
           (if (sampleMsg 1 ReplyOn.never).replyOn = ReplyOn.onSuccess ∨
               (sampleMsg 1 ReplyOn.never).replyOn = ReplyOn.always then
              (sampleReplyerNil (okReply (sampleHandlerMsgExec 0)
                (sampleMsg 1 ReplyOn.never))).emitted
            else [])) ∧
    ((dispatchStep (sampleHandlerMsgExec 0) sampleReplyerNil (sampleMsg 1 ReplyOn.never)
        (initialState 100)).2 = none →
      dispatchGo sampleHandlerMsgExec sampleReplyerNil [sampleMsg 1 ReplyOn.never] 0
          (initialState 100) =
        dispatchGo sampleHandlerMsgExec sampleReplyerNil [] 1
          (dispatchStep (sampleHandlerMsgExec 0) sampleReplyerNil (sampleMsg 1 ReplyOn.never)
            (initialState 100)).1) ∧
    (∀ e, (dispatchStep (sampleHandlerMsgExec 0) sampleReplyerNil (sampleMsg 1 ReplyOn.never)
        (initialState 100)).2 = some e →
      dispatchGo sampleHandlerMsgExec sampleReplyerNil [sampleMsg 1 ReplyOn.never] 0
          (initialState 100) =
        ((dispatchStep (sampleHandlerMsgExec 0) sampleReplyerNil (sampleMsg 1 ReplyOn.never)
            (initialState 100)).1, some e)) :=
  dispatch_submsg_effects_atomic sampleHandlerMsgExec sampleReplyerNil
    (sampleMsg 1 ReplyOn.never) (initialState 100) [] 0

/-- Claim C5: whenever the Replyer was invoked for a submessage (for any
reason: the reply trace grew by some reply `rep`) and the Replyer
returned an error, the whole dispatch aborts immediately with that error;
the remaining submessages never execute (the result does not depend on
them). -/
theorem dispatch_replyer_failure_fatal
    (h : Handler) (r : Replyer) (msg : SubMsg) (st : DState) (ms : List SubMsg) (i : Nat)
    (rep : Reply) (e : String)
    (htrace : (dispatchStep (h i) r msg st).1.trace = st.trace ++ [rep])
    (herr : (r rep).err = some e) :
    dispatchGo h r (msg :: ms) i st = ((dispatchStep (h i) r msg st).1, some e) := by
  cases hf : handlerFailure msg (h i) st.rem with
  | some e0 =>
    cases hro : msg.replyOn with
    | never =>
      rw [dispatchStep_fail_abort (h i) r msg st e0 hf (Or.inl hro)] at htrace
      simp at htrace
    | onSuccess =>
      rw [dispatchStep_fail_abort (h i) r msg st e0 hf (Or.inr hro)] at htrace
      simp at htrace
    | onError =>
      have hs := dispatchStep_fail_reply (h i) r msg st e0 hf (Or.inl hro)
      rw [hs, invokeReplyer_fst_trace] at htrace
      simp at htrace
      rw [htrace] at hs
      rw [invokeReplyer_of_err r rep _ e herr] at hs
      rw [hs]
      exact dispatchGo_cons_err h r msg ms i st _ e hs
    | always =>
      have hs := dispatchStep_fail_reply (h i) r msg st e0 hf (Or.inr hro)
      rw [hs, invokeReplyer_fst_trace] at htrace
      simp at htrace
      rw [htrace] at hs
      rw [invokeReplyer_of_err r rep _ e herr] at hs
      rw [hs]
      exact dispatchGo_cons_err h r msg ms i st _ e hs
  | none =>
    cases hro : msg.replyOn with
    | never =>
      rw [dispatchStep_ok_noReply (h i) r msg st hf (Or.inl hro)] at htrace
      simp at htrace
    | onError =>
      rw [dispatchStep_ok_noReply (h i) r msg st hf (Or.inr hro)] at htrace
      simp at htrace
    | onSuccess =>
      have hs := dispatchStep_ok_reply (h i) r msg st hf (Or.inl hro)
      rw [hs, invokeReplyer_fst_trace] at htrace
      simp at htrace
      rw [htrace] at hs
      rw [invokeReplyer_of_err r rep _ e herr] at hs
      rw [hs]
      exact dispatchGo_cons_err h r msg ms i st _ e hs
    | always =>
      have hs := dispatchStep_ok_reply (h i) r msg st hf (Or.inr hro)
      rw [hs, invokeReplyer_fst_trace] at htrace
      simp at htrace
      rw [htrace] at hs
      rw [invokeReplyer_of_err r rep _ e herr] at hs
      rw [hs]
      exact dispatchGo_cons_err h r msg ms i st _ e hs

/-- Claim C5 witness: the `reply returns error` scenario: a successful
handler whose `onSuccess` reply fails aborts the dispatch with
`reply failed`, with a pending second submessage that never executes. -/
theorem dispatch_replyer_failure_fatal_witness :
    dispatchGo sampleHandlerOk sampleReplyerFail [sampleMsg 1 ReplyOn.onSuccess,
        sampleMsg 2 ReplyOn.onSuccess] 0 (initialState 100) =
      ((dispatchStep (sampleHandlerOk 0) sampleReplyerFail (sampleMsg 1 ReplyOn.onSuccess)
          (initialState 100)).1, some "reply failed") :=
  dispatch_replyer_failure_fatal sampleHandlerOk sampleReplyerFail
    (sampleMsg 1 ReplyOn.onSuccess) (initialState 100) [sampleMsg 2 ReplyOn.onSuccess] 0
    (okReply (sampleHandlerOk 0) (sampleMsg 1 ReplyOn.onSuccess)) "reply failed"
    (by decide) (by decide)

theorem lastNonNil_append_one (l : List (Option Bytes)) (x : Option Bytes) :
    lastNonNil (l ++ [x]) = x.or (lastNonNil l) := by
  cases x <;> simp [lastNonNil, List.foldl_append, Option.or]

theorem invokeReplyer_rsp_inv (r : Replyer) (rep : Reply) (st st1 : DState)
    (hinv : st.rsp = lastNonNil (st.trace.map fun q => (r q).data))
    (hcall : invokeReplyer r rep st = (st1, none)) :
    st1.rsp = lastNonNil (st1.trace.map fun q => (r q).data) := by
  unfold invokeReplyer at hcall
  cases hre : (r rep).err with
  | some e => simp [hre] at hcall
  | none =>
    simp [hre] at hcall
    rw [← hcall]
    simp [List.map_append, lastNonNil_append_one, hinv]

theorem dispatchStep_rsp_inv (hb : HandlerBeh) (r : Replyer) (msg : SubMsg) (st st1 : DState)
    (hinv : st.rsp = lastNonNil (st.trace.map fun q => (r q).data))
    (hstep : dispatchStep hb r msg st = (st1, none)) :
    st1.rsp = lastNonNil (st1.trace.map fun q => (r q).data) := by
  cases hf : handlerFailure msg hb st.rem with
  | some e =>
    cases hro : msg.replyOn with
    | never =>
      rw [dispatchStep_fail_abort hb r msg st e hf (Or.inl hro)] at hstep
      simp at hstep
    | onSuccess =>
      rw [dispatchStep_fail_abort hb r msg st e hf (Or.inr hro)] at hstep
      simp at hstep
    | onError =>
      rw [dispatchStep_fail_reply hb r msg st e hf (Or.inl hro)] at hstep
      refine invokeReplyer_rsp_inv r (errReply msg e)
        { st with commits := st.commits ++ [false]
                  rem := st.rem - min hb.gasUsed (ceilingGas msg st.rem) } st1 ?_ hstep
      exact hinv
    | always =>
      rw [dispatchStep_fail_reply hb r msg st e hf (Or.inr hro)] at hstep
      refine invokeReplyer_rsp_inv r (errReply msg e)
        { st with commits := st.commits ++ [false]
                  rem := st.rem - min hb.gasUsed (ceilingGas msg st.rem) } st1 ?_ hstep
      exact hinv
  | none =>
    cases hro : msg.replyOn with
    | never =>
      rw [dispatchStep_ok_noReply hb r msg st hf (Or.inl hro)] at hstep
      rw [← (Prod.mk.injEq .. |>.mp hstep).1]
      exact hinv
    | onError =>
      rw [dispatchStep_ok_noReply hb r msg st hf (Or.inr hro)] at hstep
      rw [← (Prod.mk.injEq .. |>.mp hstep).1]
      exact hinv
    | onSuccess =>
      rw [dispatchStep_ok_reply hb r msg st hf (Or.inl hro)] at hstep
      refine invokeReplyer_rsp_inv r (okReply hb msg)
        { st with commits := st.commits ++ [true]
                  parentEvents := st.parentEvents ++ filterEvents (hb.events ++ hb.emitted)
                  rem := st.rem - min hb.gasUsed (ceilingGas msg st.rem) } st1 ?_ hstep
      exact hinv
    | always =>
      rw [dispatchStep_ok_reply hb r msg st hf (Or.inr hro)] at hstep
      refine invokeReplyer_rsp_inv r (okReply hb msg)
        { st with commits := st.commits ++ [true]
                  parentEvents := st.parentEvents ++ filterEvents (hb.events ++ hb.emitted)
                  rem := st.rem - min hb.gasUsed (ceilingGas msg st.rem) } st1 ?_ hstep
      exact hinv

theorem dispatchGo_rsp_inv (h : Handler) (r : Replyer) (msgs : List SubMsg) (i : Nat)
    (st st1 : DState)
    (hinv : st.rsp = lastNonNil (st.trace.map fun q => (r q).data))
    (hok : dispatchGo h r msgs i st = (st1, none)) :
    st1.rsp = lastNonNil (st1.trace.map fun q => (r q).data) := by
  induction msgs generalizing i st with
  | nil =>
    unfold dispatchGo at hok
    rw [← (Prod.mk.injEq .. |>.mp hok).1]
    exact hinv
  | cons m ms ih =>
    unfold dispatchGo at hok
    cases hstep : dispatchStep (h i) r m st with
    | mk stm eo =>
      rw [hstep] at hok
      cases eo with
      | some e => simp at hok
      | none =>
        simp at hok
        exact ih (i + 1) stm (dispatchStep_rsp_inv (h i) r m st stm hinv hstep) hok

/-- Claim C4: when a submessage list is dispatched without an abort, the
returned response data is exactly the most recently returned non-nil
response frame across all reply invocations (`lastNonNil` keeps a
zero-length but non-nil frame and lets it overwrite earlier values, skips
nil frames, and is `none` when no reply ever answered non-nil). -/
theorem dispatch_returns_last_nonnil_reply_response
    (h : Handler) (r : Replyer) (msgs : List SubMsg) (gas : Nat) (st1 : DState)
    (hok : dispatchGo h r msgs 0 (initialState gas) = (st1, none)) :
    DispatchSubmessages h r gas msgs =
      (lastNonNil (st1.trace.map fun q => (r q).data), none) := by
  unfold DispatchSubmessages
  rw [hok]
  rw [← dispatchGo_rsp_inv h r msgs 0 (initialState gas) st1 rfl hok]

/-- Claim C4 witness: the `multiple msg - empty reply can overwrite
result` scenario: two absorbed failures whose replies answer first a
non-empty frame and then an explicitly empty (but non-nil) frame; the
dispatch returns the empty frame. -/
theorem dispatch_returns_last_nonnil_reply_response_witness :
    DispatchSubmessages sampleHandlerFail sampleReplyerEmptyOn2 100
        [sampleMsg 1 ReplyOn.onError, sampleMsg 2 ReplyOn.onError] =
      (lastNonNil ((dispatchGo sampleHandlerFail sampleReplyerEmptyOn2
            [sampleMsg 1 ReplyOn.onError, sampleMsg 2 ReplyOn.onError] 0
            (initialState 100)).1.trace.map
          (fun q => (sampleReplyerEmptyOn2 q).data)), none) ∧
    DispatchSubmessages sampleHandlerFail sampleReplyerEmptyOn2 100
        [sampleMsg 1 ReplyOn.onError, sampleMsg 2 ReplyOn.onError] = (some [], none) :=
  ⟨dispatch_returns_last_nonnil_reply_response sampleHandlerFail sampleReplyerEmptyOn2
      [sampleMsg 1 ReplyOn.onError, sampleMsg 2 ReplyOn.onError] 100
      (dispatchGo sampleHandlerFail sampleReplyerEmptyOn2
        [sampleMsg 1 ReplyOn.onError, sampleMsg 2 ReplyOn.onError] 0 (initialState 100)).1
      (by decide),
    by decide⟩

/-- Claim C6 counterexample: in the
`TestDispatchSubmessages/message event filtered without reply` scenario
the handler succeeds and produces a `message`-type event, yet that event
is absent from the parent context's emitted stream: the full
observability log retains only the `execute` event, so `message` events
are not retained in the full log. -/
theorem message_event_not_retained_in_parent_log :
    handlerFailure (sampleMsg 1 ReplyOn.never) (sampleHandlerMsgExec 0)
        (initialState 100).rem = none ∧
    Event.mk "message" [] ∈ (sampleHandlerMsgExec 0).events ∧
    (dispatchGo sampleHandlerMsgExec sampleReplyerNil [sampleMsg 1 ReplyOn.never] 0
        (initialState 100)).1.commits = [true] ∧
    (dispatchGo sampleHandlerMsgExec sampleReplyerNil [sampleMsg 1 ReplyOn.never] 0
        (initialState 100)).1.parentEvents = [Event.mk "execute" [("foo", "bar")]] ∧
    Event.mk "message" [] ∉ (dispatchGo sampleHandlerMsgExec sampleReplyerNil
        [sampleMsg 1 ReplyOn.never] 0 (initialState 100)).1.parentEvents := by
  decide

/-- Claim C6 (amended): for every successful submessage, events of type
`message` produced by the Message Handler are removed from the events
delivered to the reply's `Result.Ok.Events` and are likewise removed from
what the commit appends to the parent context's emitted stream: the
parent receives exactly the filtered buffered events (followed by
whatever the reply itself emits), and no `message`-type event survives
the filter. -/
theorem dispatch_message_events_filtered_from_reply_and_log
    (h : Handler) (r : Replyer) (msg : SubMsg) (st : DState) (i : Nat)
    (hsucc : handlerFailure msg (h i) st.rem = none) :
    (dispatchStep (h i) r msg st).1.parentEvents =
      st.parentEvents ++ filterEvents ((h i).events ++ (h i).emitted) ++
        (if msg.replyOn = ReplyOn.onSuccess ∨ msg.replyOn = ReplyOn.always then
           (r (okReply (h i) msg)).emitted else []) ∧
    (dispatchStep (h i) r msg st).1.trace =
      st.trace ++
        (if msg.replyOn = ReplyOn.onSuccess ∨ msg.replyOn = ReplyOn.always then
           [okReply (h i) msg] else []) ∧
    (∀ ev ∈ filterEvents ((h i).events ++ (h i).emitted), ev.ty ≠ "message") ∧
    (∀ evs d, (okReply (h i) msg).result = SubMsgResult.ok evs d →
       ∀ ev ∈ evs, ev.ty ≠ "message") := by
  refine ⟨?_, ?_, fun ev hev => filterEvents_no_message ev _ hev, ?_⟩
  · cases hro : msg.replyOn with
    | never =>
      rw [dispatchStep_ok_noReply (h i) r msg st hsucc (Or.inl hro)]
      simp [hro]
    | onError =>
      rw [dispatchStep_ok_noReply (h i) r msg st hsucc (Or.inr hro)]
      simp [hro]
    | onSuccess =>
      rw [dispatchStep_ok_reply (h i) r msg st hsucc (Or.inl hro)]
      simp [hro, invokeReplyer_fst_parentEvents, List.append_assoc]
    | always =>
      rw [dispatchStep_ok_reply (h i) r msg st hsucc (Or.inr hro)]
      simp [hro, invokeReplyer_fst_parentEvents, List.append_assoc]
  · cases hro : msg.replyOn with
    | never =>
      rw [dispatchStep_ok_noReply (h i) r msg st hsucc (Or.inl hro)]
      simp [hro]
    | onError =>
      rw [dispatchStep_ok_noReply (h i) r msg st hsucc (Or.inr hro)]
      simp [hro]
    | onSuccess =>
      rw [dispatchStep_ok_reply (h i) r msg st hsucc (Or.inl hro)]
      simp [hro, invokeReplyer_fst_trace]
    | always =>
      rw [dispatchStep_ok_reply (h i) r msg st hsucc (Or.inr hro)]
      simp [hro, invokeReplyer_fst_trace]
  · intro evs d hres ev hmem
    unfold okReply at hres
    simp at hres
    rcases hres with ⟨hevs, _⟩
    rw [← hevs] at hmem
    by_cases hw : msg.msgIsWasm
    · rw [if_pos hw] at hmem
      exact filterEvents_no_message ev _ hmem
    · rw [if_neg hw] at hmem
      simp at hmem

/-- Claim C6 (amended) witness: the `wasm reply gets proper events`
scenario, with a Wasm-variant message whose handler returns a `message`
event and an `execute` event. -/
theorem dispatch_message_events_filtered_from_reply_and_log_witness :
    (dispatchStep (sampleHandlerMsgExec 0) sampleReplyerNil sampleWasmMsg
        (initialState 100)).1.parentEvents =
      (initialState 100).parentEvents ++
        filterEvents ((sampleHandlerMsgExec 0).events ++ (sampleHandlerMsgExec 0).emitted) ++
        (if sampleWasmMsg.replyOn = ReplyOn.onSuccess ∨
            sampleWasmMsg.replyOn = ReplyOn.always then
           (sampleReplyerNil (okReply (sampleHandlerMsgExec 0) sampleWasmMsg)).emitted
         else []) ∧
    (dispatchStep (sampleHandlerMsgExec 0) sampleReplyerNil sampleWasmMsg
        (initialState 100)).1.trace =
      (initialState 100).trace ++
        (if sampleWasmMsg.replyOn = ReplyOn.onSuccess ∨
            sampleWasmMsg.replyOn = ReplyOn.always then
           [okReply (sampleHandlerMsgExec 0) sampleWasmMsg] else []) ∧
    (∀ ev ∈ filterEvents ((sampleHandlerMsgExec 0).events ++ (sampleHandlerMsgExec 0).emitted),
       ev.ty ≠ "message") ∧
    (∀ evs d, (okReply (sampleHandlerMsgExec 0) sampleWasmMsg).result =
        SubMsgResult.ok evs d → ∀ ev ∈ evs, ev.ty ≠ "message") :=
  dispatch_message_events_filtered_from_reply_and_log sampleHandlerMsgExec sampleReplyerNil
    sampleWasmMsg (initialState 100) 0 (by decide)

/-- Claim C7: for a submessage with a gas limit, handler consumption
exceeding the ceiling `min(GasLimit, remaining ambient gas)` surfaces to
the dispatcher as an ordinary out-of-gas handler failure, so with policy
`OnError` it is absorbed via an `Err` reply with the submessage's effects
uncommitted and dispatch continuing; consumption within the ceiling (and
no handler error) succeeds, commits, and is charged in full against the
ambient meter. -/
theorem dispatch_gas_limit_exceeded_is_handler_failure
    (h : Handler) (r : Replyer) (msg : SubMsg) (st : DState) (ms : List SubMsg) (i : Nat)
    (l : Nat)
    (hgl : msg.gasLimit = some l)
    (hpol : msg.replyOn = ReplyOn.onError) :
    (min l st.rem < (h i).gasUsed →
       handlerFailure msg (h i) st.rem = some "out of gas" ∧
       (dispatchStep (h i) r msg st).1.commits = st.commits ++ [false] ∧
       (dispatchStep (h i) r msg st).1.trace = st.trace ++ [errReply msg "out of gas"] ∧
       ((r (errReply msg "out of gas")).err = none →
          (dispatchStep (h i) r msg st).2 = none ∧
          dispatchGo h r (msg :: ms) i st =
            dispatchGo h r ms (i + 1) (dispatchStep (h i) r msg st).1)) ∧
    ((h i).gasUsed ≤ min l st.rem → (h i).err = none →
       dispatchStep (h i) r msg st =
         ({ st with
             commits := st.commits ++ [true]
             parentEvents := st.parentEvents ++ filterEvents ((h i).events ++ (h i).emitted)
             rem := st.rem - (h i).gasUsed }, none)) := by
  constructor
  · intro hover
    have hfail : handlerFailure msg (h i) st.rem = some "out of gas" := by
      unfold handlerFailure
      rw [hgl]
      simp [hover]
    have hs := dispatchStep_fail_reply (h i) r msg st "out of gas" hfail (Or.inl hpol)
    refine ⟨hfail, ?_, ?_, ?_⟩
    · rw [hs, invokeReplyer_fst_commits]
    · rw [hs, invokeReplyer_fst_trace]
    · intro hrep
      rw [invokeReplyer_of_ok r _ _ hrep] at hs
      exact ⟨by rw [hs], dispatchGo_cons_ok h r msg ms i st _ (by rw [hs])⟩
  · intro hwithin herr
    have hfail : handlerFailure msg (h i) st.rem = none := by
      unfold handlerFailure
      rw [hgl]
      simp [herr, Nat.not_lt.mpr hwithin]
    have hcharge : min (h i).gasUsed (ceilingGas msg st.rem) = (h i).gasUsed := by
      unfold ceilingGas
      rw [hgl]
      exact Nat.min_eq_left hwithin
    have hs := dispatchStep_ok_noReply (h i) r msg st hfail (Or.inr hpol)
    rw [hcharge] at hs
    exact hs

/-- Claim C7 witness: the `with gas limit - out of gas` and
`with gas limit - within limit no error` scenarios: ambient gas 100,
limit 1; consumption 101 is absorbed as an out-of-gas failure via the
`Err` reply with the commit flag `false`, while consumption 1 commits
and is charged in full. -/
theorem dispatch_gas_limit_exceeded_is_handler_failure_witness :
    (handlerFailure sampleGasMsg (sampleGasHandler 0) (initialState 100).rem =
        some "out of gas" ∧
      (dispatchStep (sampleGasHandler 0) sampleReplyer sampleGasMsg
          (initialState 100)).1.commits = (initialState 100).commits ++ [false] ∧
      (dispatchStep (sampleGasHandler 0) sampleReplyer sampleGasMsg
          (initialState 100)).1.trace =
        (initialState 100).trace ++ [errReply sampleGasMsg "out of gas"] ∧
      ((sampleReplyer (errReply sampleGasMsg "out of gas")).err = none →
        (dispatchStep (sampleGasHandler 0) sampleReplyer sampleGasMsg
            (initialState 100)).2 = none ∧
        dispatchGo sampleGasHandler sampleReplyer [sampleGasMsg] 0 (initialState 100) =
          dispatchGo sampleGasHandler sampleReplyer [] 1
            (dispatchStep (sampleGasHandler 0) sampleReplyer sampleGasMsg
              (initialState 100)).1)) ∧
    dispatchStep (sampleGasHandler1 0) sampleReplyer sampleGasMsg (initialState 100) =
      ({ initialState 100 with
          commits := (initialState 100).commits ++ [true]
          parentEvents := (initialState 100).parentEvents ++
            filterEvents ((sampleGasHandler1 0).events ++ (sampleGasHandler1 0).emitted)
          rem := (initialState 100).rem - (sampleGasHandler1 0).gasUsed }, none) :=
  ⟨(dispatch_gas_limit_exceeded_is_handler_failure sampleGasHandler sampleReplyer
      sampleGasMsg (initialState 100) [] 0 1 rfl rfl).1 (by decide),
    (dispatch_gas_limit_exceeded_is_handler_failure sampleGasHandler1 sampleReplyer
      sampleGasMsg (initialState 100) [] 0 1 rfl rfl).2 (by decide) rfl⟩

/-! ## Characterisation lemmas for the event constructor -/

theorem cleanAttributes_ok_eq (l : List EventAttribute) (res : List (String × String))
    (hok : cleanAttributes l = .ok res) :
    res = l.map fun a => (trimSpace a.key, trimSpace a.value) := by
  induction l generalizing res with
  | nil =>
    unfold cleanAttributes at hok
    cases hok
    rfl
  | cons a rest ih =>
    unfold cleanAttributes at hok
    by_cases h1 : (trimSpace a.key).length = 0
    · simp [h1] at hok
    · by_cases h2 : strHasPrefix (trimSpace a.key) AttributeReservedPrefix = true
      · simp [h1, h2] at hok
      · simp [h1, h2] at hok
        cases hcr : cleanAttributes rest with
        | error er =>
          rw [hcr] at hok
          simp at hok
        | ok tail =>
          rw [hcr] at hok
          simp at hok
          rw [← hok]
          simp [ih tail hcr]

theorem cleanAttributes_bad (l : List EventAttribute) (a : EventAttribute)
    (hmem : a ∈ l)
    (hbad : trimSpace a.key = "" ∨
      strHasPrefix (trimSpace a.key) AttributeReservedPrefix = true) :
    exceptIsOk (cleanAttributes l) = false := by
  induction l with
  | nil => cases hmem
  | cons b rest ih =>
    rcases List.mem_cons.mp hmem with heq | hmem2
    · subst heq
      rcases hbad with hb | hb
      · simp [cleanAttributes, hb, exceptIsOk]
      · by_cases h1 : (trimSpace a.key).length = 0
        · simp [cleanAttributes, h1, exceptIsOk]
        · simp [cleanAttributes, h1, hb, exceptIsOk]
    · by_cases h1 : (trimSpace b.key).length = 0
      · simp [cleanAttributes, h1, exceptIsOk]
      · by_cases h2 : strHasPrefix (trimSpace b.key) AttributeReservedPrefix = true
        · simp [cleanAttributes, h1, h2, exceptIsOk]
        · have hrest := ih hmem2
          cases hcr : cleanAttributes rest with
          | error er => simp [cleanAttributes, h1, h2, hcr, exceptIsOk]
          | ok tail =>
            rw [hcr] at hrest
            simp [exceptIsOk] at hrest

theorem contractSDKEventAttributes_ok_eq (l : List EventAttribute) (addr : String)
    (res : List (String × String))
    (hok : contractSDKEventAttributes l addr = .ok res) :
    res = (AttributeKeyContractAddr, addr) ::
      (l.map fun a => (trimSpace a.key, trimSpace a.value)) := by
  unfold contractSDKEventAttributes at hok
  cases hcl : cleanAttributes l with
  | error er =>
    rw [hcl] at hok
    cases hok
  | ok tail =>
    rw [hcl] at hok
    cases hok
    simp [cleanAttributes_ok_eq l tail hcl]

theorem contractSDKEventAttributes_bad (l : List EventAttribute) (addr : String)
    (a : EventAttribute) (hmem : a ∈ l)
    (hbad : trimSpace a.key = "" ∨
      strHasPrefix (trimSpace a.key) AttributeReservedPrefix = true) :
    exceptIsOk (contractSDKEventAttributes l addr) = false := by
  have hcb := cleanAttributes_bad l a hmem hbad
  unfold contractSDKEventAttributes
  cases hcl : cleanAttributes l with
  | error er => simp [exceptIsOk]
  | ok tail =>
    rw [hcl] at hcb
    simp [exceptIsOk] at hcb

theorem newCustomEvents_singleton (e : WasmVMEvent) (addr : String) (evs : List Event)
    (hok : newCustomEvents [e] addr = .ok evs) :
    eventTypeMinLength ≤ (trimSpace e.ty).length ∧
    ∃ attrs, contractSDKEventAttributes e.attributes addr = .ok attrs ∧
      evs = [{ ty := CustomContractEventPrefix ++ trimSpace e.ty, attributes := attrs }] := by
  unfold newCustomEvents at hok
  by_cases hlen : (trimSpace e.ty).length < eventTypeMinLength
  · rw [if_pos hlen] at hok
    cases hok
  · rw [if_neg hlen] at hok
    cases hca : contractSDKEventAttributes e.attributes addr with
    | error er =>
      rw [hca] at hok
      cases hok
    | ok attrs =>
      rw [hca] at hok
      have hnil : newCustomEvents [] addr = .ok [] := rfl
      rw [hnil] at hok
      cases hok
      exact ⟨Nat.le_of_not_lt hlen, attrs, rfl, rfl⟩

theorem newWasmModuleEvent_shape (attrs : List EventAttribute) (addr : String)
    (evs : List Event) (hok : newWasmModuleEvent attrs addr = .ok evs) :
    ∃ res, contractSDKEventAttributes attrs addr = .ok res ∧
      evs = [{ ty := WasmModuleEventType, attributes := res }] := by
  unfold newWasmModuleEvent at hok
  cases hca : contractSDKEventAttributes attrs addr with
  | error er =>
    rw [hca] at hok
    cases hok
  | ok res =>
    rw [hca] at hok
    cases hok
    exact ⟨res, rfl, rfl⟩

/-- Claim C8: a successfully constructed per-contract event always has a
trimmed type of at least `eventTypeMinLength` (2) characters — so a
shorter type fails construction — and its output type is `wasm-`
followed by the trimmed type, while the module-level constructor always
produces the bare type `wasm`. -/
theorem custom_event_type_trimmed_namespaced (e : WasmVMEvent) (addr : String)
    (attrs : List EventAttribute) :
    (exceptIsOk (newCustomEvents [e] addr) = true →
       eventTypeMinLength ≤ (trimSpace e.ty).length) ∧
    (∀ evs, newCustomEvents [e] addr = .ok evs →
       evs.map Event.ty = [CustomContractEventPrefix ++ trimSpace e.ty]) ∧
    (∀ evs, newWasmModuleEvent attrs addr = .ok evs →
       evs.map Event.ty = [WasmModuleEventType]) := by
  refine ⟨?_, ?_, ?_⟩
  · intro hok
    cases hca : newCustomEvents [e] addr with
    | error er =>
      rw [hca] at hok
      simp [exceptIsOk] at hok
    | ok evs => exact (newCustomEvents_singleton e addr evs hca).1
  · intro evs hok
    obtain ⟨-, attrs2, -, hevs⟩ := newCustomEvents_singleton e addr evs hok
    rw [hevs]
    rfl
  · intro evs hok
    obtain ⟨res, -, hevs⟩ := newWasmModuleEvent_shape attrs addr evs hok
    rw [hevs]
    rfl

/-- Claim C8 witness: the `strip out whitespace` scenario of
`TestNewCustomEvents` — type `"  food\n"` trims to `food` and is emitted
as `wasm-food` — together with the `all good` module event of
`TestNewWasmModuleEvent`. -/
theorem custom_event_type_trimmed_namespaced_witness :
    eventTypeMinLength ≤
      (trimSpace (WasmVMEvent.mk "  food\n" [EventAttribute.mk "my Key" "\tmyVal"]).ty).length ∧
    ([Event.mk "wasm-food" [("_contract_address", "cosmos1aa"), ("my Key", "myVal")]].map
        Event.ty =
      [CustomContractEventPrefix ++
        trimSpace (WasmVMEvent.mk "  food\n" [EventAttribute.mk "my Key" "\tmyVal"]).ty]) ∧
    ([Event.mk "wasm" [("_contract_address", "cosmos1aa"), ("myKey", "myVal")]].map Event.ty =
      [WasmModuleEventType]) :=
  ⟨(custom_event_type_trimmed_namespaced
      (WasmVMEvent.mk "  food\n" [EventAttribute.mk "my Key" "\tmyVal"]) "cosmos1aa"
      [EventAttribute.mk "myKey" "myVal"]).1 (by decide),
    (custom_event_type_trimmed_namespaced
      (WasmVMEvent.mk "  food\n" [EventAttribute.mk "my Key" "\tmyVal"]) "cosmos1aa"
      [EventAttribute.mk "myKey" "myVal"]).2.1 _ (by decide),
    (custom_event_type_trimmed_namespaced
      (WasmVMEvent.mk "  food\n" [EventAttribute.mk "my Key" "\tmyVal"]) "cosmos1aa"
      [EventAttribute.mk "myKey" "myVal"]).2.2 _ (by decide)⟩

/-- Claim C9: every event built by either constructor flavor carries
`_contract_address` with the contract address as its first attribute; an
input attribute literally keyed `_contract_address` fails construction
whatever its value; an input attribute whose key trims to empty fails
construction; and a successful attribute list is exactly the injected
address attribute followed by the key/value-trimmed inputs (so a
whitespace-only value collapses to the empty string without error). -/
theorem contract_address_attribute_invariant
    (attrs : List EventAttribute) (addr v : String) (e : WasmVMEvent) :
    (∀ evs, newWasmModuleEvent attrs addr = .ok evs →
       ∀ ev ∈ evs, ev.attributes.head? = some (AttributeKeyContractAddr, addr)) ∧
    (∀ evs, newCustomEvents [e] addr = .ok evs →
       ∀ ev ∈ evs, ev.attributes.head? = some (AttributeKeyContractAddr, addr)) ∧
    (EventAttribute.mk AttributeKeyContractAddr v ∈ attrs →
       exceptIsOk (contractSDKEventAttributes attrs addr) = false) ∧
    (∀ a ∈ attrs, trimSpace a.key = "" →
       exceptIsOk (contractSDKEventAttributes attrs addr) = false) ∧
    (∀ res, contractSDKEventAttributes attrs addr = .ok res →
       res = (AttributeKeyContractAddr, addr) ::
         (attrs.map fun a => (trimSpace a.key, trimSpace a.value))) := by
  refine ⟨?_, ?_, ?_, ?_, fun res hok => contractSDKEventAttributes_ok_eq attrs addr res hok⟩
  · intro evs hok ev hmem
    obtain ⟨res, hca, hevs⟩ := newWasmModuleEvent_shape attrs addr evs hok
    rw [hevs] at hmem
    rw [List.mem_singleton] at hmem
    subst hmem
    rw [contractSDKEventAttributes_ok_eq attrs addr res hca]
    rfl
  · intro evs hok ev hmem
    obtain ⟨-, res, hca, hevs⟩ := newCustomEvents_singleton e addr evs hok
    rw [hevs] at hmem
    rw [List.mem_singleton] at hmem
    subst hmem
    rw [contractSDKEventAttributes_ok_eq e.attributes addr res hca]
    rfl
  · intro hmem
    refine contractSDKEventAttributes_bad attrs addr
      (EventAttribute.mk AttributeKeyContractAddr v) hmem (Or.inr ?_)
    show strHasPrefix (trimSpace AttributeKeyContractAddr) AttributeReservedPrefix = true
    decide
  · intro a hmem hkey
    exact contractSDKEventAttributes_bad attrs addr a hmem (Or.inl hkey)

/-- Claim C9 witness: the `error on _contract_address`, `error on only
whitespace key`, `whitespace-only value` and `all good` scenarios of the
event tests, at concrete inputs. -/
theorem contract_address_attribute_invariant_witness :
    (∀ ev ∈ [Event.mk "wasm" [("_contract_address", "cosmos1aa"), ("myKey", "myVal")]],
       ev.attributes.head? = some (AttributeKeyContractAddr, "cosmos1aa")) ∧
    exceptIsOk (contractSDKEventAttributes
      [EventAttribute.mk "_contract_address" "spoof"] "cosmos1aa") = false ∧
    exceptIsOk (contractSDKEventAttributes
      [EventAttribute.mk "some" "data", EventAttribute.mk "\n\n\n\n" "value"]
      "cosmos1aa") = false ∧
    contractSDKEventAttributes [EventAttribute.mk "myKey" "     "] "cosmos1aa" =
      .ok [(AttributeKeyContractAddr, "cosmos1aa"), ("myKey", "")] :=
  ⟨(contract_address_attribute_invariant [EventAttribute.mk "myKey" "myVal"] "cosmos1aa"
      "spoof" (WasmVMEvent.mk "foo" [])).1 _ (by decide),
    (contract_address_attribute_invariant [EventAttribute.mk "_contract_address" "spoof"]
      "cosmos1aa" "spoof" (WasmVMEvent.mk "foo" [])).2.2.1 (by decide),
    (contract_address_attribute_invariant
      [EventAttribute.mk "some" "data", EventAttribute.mk "\n\n\n\n" "value"]
      "cosmos1aa" "spoof" (WasmVMEvent.mk "foo" [])).2.2.2.1
      (EventAttribute.mk "\n\n\n\n" "value") (by decide) (by decide),
    by decide⟩

/-! ## Lemmas for the IBC port id round trip -/

theorem hexVal_hexChar : ∀ n : Fin 16, hexVal (hexChar n.val) = some n.val := by
  decide

theorem hexDecodeChars_addrHexChars (a : AccAddress) :
    hexDecodeChars (addrHexChars a) = some a := by
  induction a with
  | nil => rfl
  | cons b rest ih =>
    have hb256 : b.val < 256 := b.isLt
    have h1 : b.val / 16 < 16 := by omega
    have h2 : b.val % 16 < 16 := by omega
    have e1 := hexVal_hexChar ⟨b.val / 16, h1⟩
    have e2 := hexVal_hexChar ⟨b.val % 16, h2⟩
    have hshow : addrHexChars (b :: rest) =
        hexChar (b.val / 16) :: hexChar (b.val % 16) :: addrHexChars rest := rfl
    have hlt : b.val / 16 * 16 + b.val % 16 < 256 := by omega
    have hfin : (⟨b.val / 16 * 16 + b.val % 16, hlt⟩ : Fin 256) = b := by
      apply Fin.ext
      show b.val / 16 * 16 + b.val % 16 = b.val
      omega
    rw [hshow]
    unfold hexDecodeChars
    rw [e1, e2, ih]
    simp only [dif_pos hlt]
    rw [hfin]

theorem strHasPrefix_append_self (pre t : String) : strHasPrefix (pre ++ t) pre = true := by
  unfold strHasPrefix
  rw [String.data_append, List.isPrefixOf_iff_prefix]
  exact List.prefix_append _ _

theorem strDropLen_append (pre t : String) : strDrop (pre ++ t) pre.length = t := by
  unfold strDrop
  rw [String.data_append]
  rw [show pre.length = pre.data.length from rfl]
  rw [List.drop_left]

theorem not_strHasPrefix_wasm2 (x : String) :
    strHasPrefix (portIDPrefix ++ x) ibcV2PortIDPrefix = false := by
  unfold strHasPrefix ibcV2PortIDPrefix portIDPrefix
  rw [String.data_append]
  rw [Bool.eq_false_iff]
  intro hpre
  rw [List.isPrefixOf_iff_prefix] at hpre
  obtain ⟨t, ht⟩ := hpre
  have h4 := congrArg (fun l => l.get? 4) ht
  simp at h4

theorem ContractFromPortID_wasm_eq (x : String) :
    ContractFromPortID (portIDPrefix ++ x) = accAddressFromBech32 x := by
  unfold ContractFromPortID
  rw [not_strHasPrefix_wasm2 x]
  rw [strHasPrefix_append_self portIDPrefix x]
  simp only [Bool.false_eq_true, if_false, if_true]
  rw [strDropLen_append]

theorem ContractFromPortID_wasm2_eq (x : String) :
    ContractFromPortID (ibcV2PortIDPrefix ++ x) = accAddressFromBech32 x := by
  unfold ContractFromPortID
  rw [strHasPrefix_append_self ibcV2PortIDPrefix x]
  simp only [if_true]
  rw [strDropLen_append]

theorem accAddressFromBech32_addrString (a : AccAddress) (h : a ≠ []) :
    accAddressFromBech32 ("cosmos1" ++ String.mk (addrHexChars a)) = .ok a := by
  unfold accAddressFromBech32
  rw [if_neg (by
    intro heq
    have hd := congrArg String.data heq
    rw [String.data_append] at hd
    simp at hd)]
  rw [if_pos (strHasPrefix_append_self "cosmos1" (String.mk (addrHexChars a)))]
  rw [String.data_append]
  rw [show (String.mk (addrHexChars a)).data = addrHexChars a from rfl]
  rw [show (7 : Nat) = "cosmos1".data.length from rfl]
  rw [List.drop_left]
  unfold decodedAddr
  rw [hexDecodeChars_addrHexChars a]
  cases a with
  | nil => exact absurd rfl h
  | cons b bs => rfl

/-- Claim C10: converting an account address to a port id and back is the
identity for both port id flavors (for the non-empty addresses the sdk
address codec accepts), and `ContractFromPortID` rejects every string
that carries neither the `wasm.` nor the `wasm2.` prefix. -/
theorem port_id_contract_round_trip (addr : AccAddress) (s : String)
    (hne : addr ≠ []) :
    ContractFromPortID (PortIDForContract addr) = .ok addr ∧
    ContractFromPortID (IbcV2PortIDForContract addr) = .ok addr ∧
    (strHasPrefix s portIDPrefix = false → strHasPrefix s ibcV2PortIDPrefix = false →
       ContractFromPortID s = .error "without prefix") := by
  have hs : addrString addr = "cosmos1" ++ String.mk (addrHexChars addr) := by
    unfold addrString
    rw [if_neg hne]
  refine ⟨?_, ?_, ?_⟩
  · unfold PortIDForContract
    rw [ContractFromPortID_wasm_eq, hs]
    exact accAddressFromBech32_addrString addr hne
  · unfold IbcV2PortIDForContract
    rw [ContractFromPortID_wasm2_eq, hs]
    exact accAddressFromBech32_addrString addr hne
  · intro h1 h2
    unfold ContractFromPortID
    rw [h1, h2]
    rfl

/-- Claim C10 witness: the round trip at the two-byte address `[1, 171]`
and the rejection of the plain string `transfer`. -/
theorem port_id_contract_round_trip_witness :
    ContractFromPortID (PortIDForContract [(1 : Fin 256), (171 : Fin 256)]) =
      .ok [(1 : Fin 256), (171 : Fin 256)] ∧
    ContractFromPortID (IbcV2PortIDForContract [(1 : Fin 256), (171 : Fin 256)]) =
      .ok [(1 : Fin 256), (171 : Fin 256)] ∧
    (strHasPrefix "transfer" portIDPrefix = false →
     strHasPrefix "transfer" ibcV2PortIDPrefix = false →
       ContractFromPortID "transfer" = .error "without prefix") :=
  port_id_contract_round_trip [(1 : Fin 256), (171 : Fin 256)] "transfer" (by decide)

end Wasmd
